import Mathlib

/-!
Verification development for the fleet password-update scripts.

The repository has three Python scripts:
* `reset_password_aws_cli.py` and `updates_pass_ip.py` share one SSM-based
  pipeline: resolve instance ids, (in the second script) verify SSM
  availability, send one `chpasswd` command to all instances, then poll
  `get_command_invocation` per instance until every recorded status leaves
  `Pending`/`InProgress` or 30 rounds of 10 seconds elapse, and finally count
  successes.  The polling logic of `update_password` is character-for-character
  identical in the two scripts (lines 55-134 of the first, 228-317 of the
  second), so it is embedded once below, in namespace `SSM`.
* `password_update.py` is an SSH variant that logs into each host in turn;
  it is embedded in namespace `SSH`.

External collaborators (boto3, paramiko, files, prompts) are modelled as
oracle arguments: a channel response per polling round and instance, a send
outcome, a listing outcome, and so on.  Statuses are the raw strings the code
manipulates ("Pending", "InProgress", "Success", "Failed", "Error", ...).
-/

set_option autoImplicit false

namespace PasswordFleet

/-- Python substring test `sub in s` on character lists: does `s` start with
`sub`?  (Helper for `charsContain`.) -/
def charsBegin : List Char → List Char → Bool
  | [], _ => true
  | _ :: _, [] => false
  | a :: as, b :: bs => a == b && charsBegin as bs

/-- Python substring test `sub in s` on character lists: does `sub` occur
somewhere in `s`? -/
def charsContain (sub : List Char) : List Char → Bool
  | [] => charsBegin sub []
  | b :: bs => charsBegin sub (b :: bs) || charsContain sub bs

/-- Python `sub in s` for strings, as used in `"InvalidInstanceId" in str(e)`. -/
def containsSub (s sub : String) : Bool :=
  charsContain sub.data s.data

namespace SSM

/-- One per-instance record of the mutable `results[instance_id]` dictionary:
`{"status": ..., "message": ...}`. -/
structure Entry where
  status : String
  message : String
deriving DecidableEq, Repr

/-- The `results` dictionary: insertion-ordered map from instance id to its
entry, as a Python `dict` is. -/
abbrev Dict := List (String × Entry)

/-- Python `dict` lookup `results[instance_id]` (first matching key). -/
def dictFind : Dict → String → Option Entry
  | [], _ => none
  | (k, v) :: rest, key => if k = key then some v else dictFind rest key

/-- Python `dict` assignment `results[instance_id] = entry`: update the
existing key in place, else append (insertion order preserved). -/
def dictInsert : Dict → String → Entry → Dict
  | [], k, v => [(k, v)]
  | (k1, v1) :: rest, k, v =>
      if k1 = k then (k1, v) :: rest else (k1, v1) :: dictInsert rest k v

/-- Outcome of one `ssm.get_command_invocation` call for one instance:
either a result dict carrying `Status` and optionally `StandardErrorContent`,
or a raised `ClientError` with its string rendering. -/
inductive QueryResult where
  | ok (status : String) (standardErrorContent : Option String)
  | clientError (msg : String)
deriving DecidableEq, Repr

/-- Outcome of the initial `ssm.send_command` call. -/
inductive SendResult where
  | ok (commandId : String)
  | clientError (msg : String)
deriving DecidableEq, Repr

/-- Return value of `update_password`: either
`{"success": False, "message": ...}` or `{"success": True, "results": ...}`. -/
inductive UpdateResult where
  | failure (message : String)
  | success (results : Dict)
deriving DecidableEq, Repr

/-- `max_retries = 30  # 5 minutes max with 10 second intervals`. -/
def max_retries : Nat := 30

/-- The `time.sleep(10)` interval (seconds) at the top of each polling round. -/
def poll_interval : Nat := 10

/-- A status for which the polling loop keeps the target in play:
`results[instance_id]["status"] in ["Pending", "InProgress"]`. -/
abbrev activeStatus (s : String) : Prop :=
  s = "Pending" ∨ s = "InProgress"

/-- Body of the inner `for instance_id in instance_ids:` loop of
`update_password` (reset_password_aws_cli.py lines 103-129, updates_pass_ip.py
lines 284-310).  `acc` is the pair (results dict, `all_complete` flag);
`resp iid` is what `ssm.get_command_invocation` does for that instance this
round. -/
def pollInstance (resp : String → QueryResult) (acc : Dict × Bool)
    (iid : String) : Dict × Bool :=
  match dictFind acc.1 iid with
  | none => acc
  | some entry =>
    if activeStatus entry.status then
      match resp iid with
      | .ok status stderrContent =>
          if status = "Success" then
            (dictInsert acc.1 iid ⟨status, "Password updated successfully"⟩, acc.2)
          else if status = "Failed" then
            (dictInsert acc.1 iid
              ⟨status, "Failed: " ++ stderrContent.getD "Unknown error"⟩, acc.2)
          else if activeStatus status then
            (dictInsert acc.1 iid ⟨status, entry.message⟩, false)
          else
            (dictInsert acc.1 iid ⟨status, "Status: " ++ status⟩, acc.2)
      | .clientError m =>
          if containsSub m "InvalidInstanceId" then
            (dictInsert acc.1 iid
              ⟨"Failed", "Instance not found or not configured for SSM"⟩, acc.2)
          else
            (dictInsert acc.1 iid ⟨"Error", m⟩, acc.2)
    else acc

/-- One polling round: `all_complete = True` then the `for` loop over all
instance ids. -/
def pollRound (resp : String → QueryResult) (ids : List String)
    (results : Dict) : Dict × Bool :=
  ids.foldl (pollInstance resp) (results, true)

/-- The `while not all_complete and retries < max_retries:` loop.
`fuel` is the remaining retry budget `max_retries - retries`, so `fuel = 0`
is exactly `retries < max_retries` failing; `resp r` is the channel's
behaviour on round `r` (the value of `retries` for that round).  Returns the
final results dict and the final `retries` counter (= number of rounds run and
of 10-second sleeps taken). -/
def pollLoop (resp : Nat → String → QueryResult) (ids : List String) :
    Nat → Dict → Bool → Nat → Dict × Nat
  | 0, results, _, retries => (results, retries)
  | fuel + 1, results, allComplete, retries =>
      if allComplete then (results, retries)
      else
        let round := pollRound (resp (retries + 1)) ids results
        pollLoop resp ids fuel round.1 round.2 (retries + 1)

/-- Initialisation `results[instance_id] = {"status": "Pending", "message": ""}`
for every dispatched instance. -/
def initResults (ids : List String) : Dict :=
  ids.foldl (fun d iid => dictInsert d iid ⟨"Pending", ""⟩) []

/-- `update_password(instance_ids, username, new_password)` of the two SSM
scripts, with the send outcome and the per-round channel behaviour as oracles.
The command construction and printing have no bearing on the returned value
and are not modelled. -/
def update_password (send : SendResult) (resp : Nat → String → QueryResult)
    (instance_ids : List String) : UpdateResult :=
  if instance_ids.isEmpty then .failure "No instances provided"
  else
    match send with
    | .clientError m => .failure ("Error sending command: " ++ m)
    | .ok _ =>
        .success (pollLoop resp instance_ids max_retries
          (initResults instance_ids) false 0).1

/-- `main`: `success_count = sum(1 for ... if data["status"] == "Success")`. -/
def success_count (results : Dict) : Nat :=
  (results.filter fun p => decide (p.2.status = "Success")).length

/-- `main`: the failed tally printed is `len(available) - success_count`. -/
def failed_count (nAvailable : Nat) (results : Dict) : Nat :=
  nAvailable - success_count results

/-- `main`: an instance is listed under "Instances with errors" exactly when
`data["status"] != "Success"`. -/
def counted_failed (results : Dict) (iid : String) : Bool :=
  match dictFind results iid with
  | some e => decide (e.status ≠ "Success")
  | none => false

/-- Modelled from the spec words of claim C5 only (for comparison with the
code): the claimed failed bucket counts exactly the terminal statuses
Failed, Error, Unavailable and TimedOut. -/
def claimedFailedCount (results : Dict) : Nat :=
  (results.filter fun p =>
    decide (p.2.status = "Failed" ∨ p.2.status = "Error" ∨
      p.2.status = "Unavailable" ∨ p.2.status = "TimedOut")).length

/-- Outcome of the paginated `ssm.describe_instance_information` listing of
`verify_ssm_availability` (updates_pass_ip.py lines 199-225): either the
pages, each a list of registered `InstanceId`s, or a raised `ClientError`. -/
inductive ListingResult where
  | ok (pages : List (List String))
  | clientError (msg : String)
deriving DecidableEq, Repr

/-- `verify_ssm_availability(instance_ids)` of updates_pass_ip.py: accumulate
the set of listed instance ids intersected with the input across all pages;
on `ClientError` print and return `([], instance_ids)`.  The Python `set` is
modelled as a first-seen-ordered list without duplicates. -/
def verify_ssm_availability (listing : ListingResult)
    (instance_ids : List String) : List String × List String :=
  match listing with
  | .ok pages =>
      let available := pages.foldl (fun acc page =>
        page.foldl (fun acc2 iid =>
          if iid ∈ instance_ids then
            (if iid ∈ acc2 then acc2 else acc2 ++ [iid])
          else acc2) acc) []
      (available, instance_ids.filter fun i => decide (i ∉ available))
  | .clientError _ => ([], instance_ids)

/-- The availability gate of `main` (updates_pass_ip.py lines 335-343):
the run aborts (`sys.exit(1)`) exactly when `verify_ssm_availability` returned
no available instances. -/
def ssm_availability_aborts (listing : ListingResult)
    (instance_ids : List String) : Bool :=
  (verify_ssm_availability listing instance_ids).1.isEmpty

/-- One EC2 instance as seen through `describe_instances`: its id and the
`State.Name` field used for the `running` filter. -/
structure Ec2Instance where
  instanceId : String
  stateName : String
deriving DecidableEq, Repr

/-- Outcome of `ec2.describe_instances`: the reservations, each with its
instances, or a raised `ClientError`. -/
inductive DescribeResult where
  | ok (reservations : List (List Ec2Instance))
  | clientError (msg : String)
deriving DecidableEq, Repr

/-- `get_instance_ids(tags=None, instance_ids=None)` of
reset_password_aws_cli.py lines 14-52, with the EC2 query and the
`instance_ids.txt` read as oracles (`fileLines = none` is
`FileNotFoundError`).  A provided non-empty explicit id list is returned
as-is; a tag query collects the ids of running instances; otherwise the file
lines are stripped and blank lines dropped. -/
def get_instance_ids (describe : DescribeResult)
    (fileLines : Option (List String))
    (tags : Option (List (String × String)))
    (instance_ids : Option (List String)) : List String :=
  let fromFile : List String :=
    match fileLines with
    | some lines => (lines.map String.trim).filter fun l => decide (l ≠ "")
    | none => []
  match instance_ids with
  | some ids =>
      if ids.isEmpty then
        match tags with
        | some ts =>
            if ts.isEmpty then fromFile else
              match describe with
              | .ok reservations =>
                  reservations.foldl (fun acc instances =>
                    instances.foldl (fun acc2 inst =>
                      if inst.stateName = "running" then acc2 ++ [inst.instanceId]
                      else acc2) acc) []
              | .clientError _ => []
        | none => fromFile
      else ids
  | none =>
      match tags with
      | some ts =>
          if ts.isEmpty then fromFile else
            match describe with
            | .ok reservations =>
                reservations.foldl (fun acc instances =>
                  instances.foldl (fun acc2 inst =>
                    if inst.stateName = "running" then acc2 ++ [inst.instanceId]
                    else acc2) acc) []
            | .clientError _ => []
      | none => fromFile

end SSM

namespace SSH

/-- What happens on one host inside the `try:` block of `update_password`
(password_update.py lines 39-62): either some statement (connect, exec,
status wait) raises an exception with the given string rendering, or the
command runs and yields an exit status plus the decoded stderr text. -/
inductive SSHOutcome where
  | raised (msg : String)
  | ran (exitStatus : Nat) (stderrOut : String)
deriving DecidableEq, Repr

/-- The observable result of one `update_password` call: the returned
`(success, message)` pair, plus whether `client.close()` ran (the `finally:`
block). -/
structure CallResult where
  success : Bool
  message : String
  clientClosed : Bool
deriving DecidableEq, Repr

/-- `update_password(hostname, port, ssh_username, ssh_password,
target_username, new_password)` of password_update.py.  Every exception in
the `try:` block is caught by `except Exception` and turned into a
`(False, "Error connecting to ...")` return; the `finally:` block closes the
client on every path. -/
def update_password (hostname : String) (port : Nat)
    (ssh_username ssh_password target_username new_password : String)
    (outcome : SSHOutcome) : CallResult :=
  let body : Bool × String :=
    match outcome with
    | .ran exitStatus stderrOut =>
        if exitStatus = 0 then
          (true, "Password updated successfully for " ++ target_username ++
            " on " ++ hostname)
        else
          (false, "Failed to update password on " ++ hostname ++ ": " ++
            stderrOut.trim)
    | .raised m => (false, "Error connecting to " ++ hostname ++ ": " ++ m)
  { success := body.1, message := body.2, clientClosed := true }

/-- The per-server loop of `main` (password_update.py lines 110-124):
call `update_password` for every host in order and collect
`(hostname, success, message)` triples. -/
def main_results (outcomes : String → SSHOutcome) (servers : List String)
    (port : Nat) (ssh_username ssh_password target_username new_password : String) :
    List (String × Bool × String) :=
  servers.map fun hostname =>
    let r := update_password hostname port ssh_username ssh_password
      target_username new_password (outcomes hostname)
    (hostname, r.success, r.message)

end SSH

namespace SSM

/-! Dictionary lemmas. -/

theorem dictFind_dictInsert (d : Dict) (k j : String) (v : Entry) :
    dictFind (dictInsert d k v) j = if k = j then some v else dictFind d j := by
  induction d with
  | nil => simp [dictInsert, dictFind]
  | cons p rest ih =>
      obtain ⟨k1, v1⟩ := p
      by_cases h1 : k1 = k
      · subst h1
        rw [show dictInsert ((k1, v1) :: rest) k1 v = (k1, v) :: rest from by
          simp [dictInsert]]
        simp only [dictFind]
        split_ifs <;> simp_all
      · rw [show dictInsert ((k1, v1) :: rest) k v = (k1, v1) :: dictInsert rest k v from by
          simp [dictInsert, h1]]
        simp only [dictFind]
        rw [ih]
        split_ifs <;> simp_all

theorem dictInsert_self (d : Dict) (k : String) (e : Entry)
    (h : dictFind d k = some e) : dictInsert d k e = d := by
  induction d with
  | nil => simp [dictFind] at h
  | cons p rest ih =>
      obtain ⟨k1, v1⟩ := p
      simp only [dictFind] at h
      simp only [dictInsert]
      split_ifs with h1
      · rw [if_pos h1] at h
        simp_all
      · rw [if_neg h1] at h
        rw [ih h]

theorem dictInsert_length_some (d : Dict) (k : String) (e v : Entry)
    (h : dictFind d k = some e) : (dictInsert d k v).length = d.length := by
  induction d with
  | nil => simp [dictFind] at h
  | cons p rest ih =>
      obtain ⟨k1, v1⟩ := p
      simp only [dictFind] at h
      simp only [dictInsert]
      split_ifs with h1
      · simp
      · rw [if_neg h1] at h
        simp [ih h]

theorem dictInsert_length_none (d : Dict) (k : String) (v : Entry)
    (h : dictFind d k = none) : (dictInsert d k v).length = d.length + 1 := by
  induction d with
  | nil => simp [dictInsert]
  | cons p rest ih =>
      obtain ⟨k1, v1⟩ := p
      simp only [dictFind] at h
      simp only [dictInsert]
      split_ifs with h1
      · rw [if_pos h1] at h
        simp at h
      · rw [if_neg h1] at h
        simp [ih h]

/-! The per-key effect of one `pollInstance` step. -/

/-- What one successful lookup round does to one entry: the per-key core of
`pollInstance`, factored out for the proofs (`q` is what the status query for
this instance returned this round). -/
def pollEntry (q : QueryResult) (e : Entry) : Entry :=
  if activeStatus e.status then
    match q with
    | .ok status stderrContent =>
        if status = "Success" then ⟨status, "Password updated successfully"⟩
        else if status = "Failed" then
          ⟨status, "Failed: " ++ stderrContent.getD "Unknown error"⟩
        else if activeStatus status then ⟨status, e.message⟩
        else ⟨status, "Status: " ++ status⟩
    | .clientError m =>
        if containsSub m "InvalidInstanceId" then
          ⟨"Failed", "Instance not found or not configured for SSM"⟩
        else ⟨"Error", m⟩
  else e

theorem pollInstance_none (resp : String → QueryResult) (acc : Dict × Bool)
    (k : String) (h : dictFind acc.1 k = none) :
    pollInstance resp acc k = acc := by
  simp [pollInstance, h]

theorem pollInstance_not_active (resp : String → QueryResult) (acc : Dict × Bool)
    (k : String) (e : Entry) (hf : dictFind acc.1 k = some e)
    (hterm : ¬ activeStatus e.status) :
    pollInstance resp acc k = acc := by
  simp [pollInstance, hf, hterm]

theorem pollInstance_fst_eq (resp : String → QueryResult) (acc : Dict × Bool)
    (k : String) (e : Entry) (hf : dictFind acc.1 k = some e) :
    (pollInstance resp acc k).1 = dictInsert acc.1 k (pollEntry (resp k) e) := by
  by_cases hact : activeStatus e.status
  · cases hr : resp k with
    | ok s c =>
        simp only [pollInstance, pollEntry, hf, hr, if_pos hact]
        split_ifs <;> rfl
    | clientError m =>
        simp only [pollInstance, pollEntry, hf, hr, if_pos hact]
        split_ifs <;> rfl
  · simp only [pollInstance, pollEntry, hf, if_neg hact]
    exact (dictInsert_self acc.1 k e hf).symm

theorem pollInstance_find_ne (resp : String → QueryResult) (acc : Dict × Bool)
    (k j : String) (h : k ≠ j) :
    dictFind (pollInstance resp acc k).1 j = dictFind acc.1 j := by
  cases hf : dictFind acc.1 k with
  | none => rw [pollInstance_none resp acc k hf]
  | some e =>
      rw [pollInstance_fst_eq resp acc k e hf, dictFind_dictInsert, if_neg h]

theorem pollInstance_length (resp : String → QueryResult) (acc : Dict × Bool)
    (k : String) : (pollInstance resp acc k).1.length = acc.1.length := by
  cases hf : dictFind acc.1 k with
  | none => rw [pollInstance_none resp acc k hf]
  | some e =>
      rw [pollInstance_fst_eq resp acc k e hf,
        dictInsert_length_some acc.1 k e _ hf]

/-! One round: effect of the fold over all instance ids. -/

theorem pollFold_find_not_mem (resp : String → QueryResult) (j : String) :
    ∀ (ids : List String), j ∉ ids → ∀ acc : Dict × Bool,
      dictFind (ids.foldl (pollInstance resp) acc).1 j = dictFind acc.1 j := by
  intro ids
  induction ids with
  | nil => intro _ acc; rfl
  | cons k rest ih =>
      intro hj acc
      rw [List.mem_cons] at hj
      push_neg at hj
      rw [List.foldl_cons, ih hj.2, pollInstance_find_ne resp acc k j (Ne.symm hj.1)]

theorem pollFold_find_once (resp : String → QueryResult) (k : String) :
    ∀ (ids : List String), ids.Nodup → k ∈ ids →
      ∀ (acc : Dict × Bool) (e : Entry), dictFind acc.1 k = some e →
        dictFind (ids.foldl (pollInstance resp) acc).1 k =
          some (pollEntry (resp k) e) := by
  intro ids
  induction ids with
  | nil => intro _ hmem; cases hmem
  | cons j rest ih =>
      intro hN hmem acc e hf
      rw [List.foldl_cons]
      by_cases hjk : j = k
      · subst hjk
        have hnotin : j ∉ rest := (List.nodup_cons.mp hN).1
        rw [pollFold_find_not_mem resp j rest hnotin,
          pollInstance_fst_eq resp acc j e hf, dictFind_dictInsert, if_pos rfl]
      · have hmem2 : k ∈ rest := by
          rcases List.mem_cons.mp hmem with h | h
          · exact absurd h.symm hjk
          · exact h
        have hf2 : dictFind (pollInstance resp acc j).1 k = some e := by
          rw [pollInstance_find_ne resp acc j k hjk]; exact hf
        exact ih (List.nodup_cons.mp hN).2 hmem2 _ e hf2

theorem pollFold_terminal (resp : String → QueryResult) (k : String) (e : Entry)
    (hterm : ¬ activeStatus e.status) :
    ∀ (ids : List String) (acc : Dict × Bool), dictFind acc.1 k = some e →
      dictFind (ids.foldl (pollInstance resp) acc).1 k = some e := by
  intro ids
  induction ids with
  | nil => intro acc h; exact h
  | cons j rest ih =>
      intro acc h
      rw [List.foldl_cons]
      apply ih
      by_cases hjk : j = k
      · subst hjk
        rw [pollInstance_not_active resp acc j e h hterm]
        exact h
      · rw [pollInstance_find_ne resp acc j k hjk]
        exact h

theorem pollFold_active (resp : String → QueryResult) (k : String)
    (hr : ∃ s c, resp k = .ok s c ∧ activeStatus s) :
    ∀ (ids : List String) (acc : Dict × Bool) (e : Entry),
      dictFind acc.1 k = some e → activeStatus e.status →
      ∃ e2, dictFind (ids.foldl (pollInstance resp) acc).1 k = some e2 ∧
        activeStatus e2.status := by
  intro ids
  induction ids with
  | nil => intro acc e h hact; exact ⟨e, h, hact⟩
  | cons j rest ih =>
      intro acc e h hact
      rw [List.foldl_cons]
      by_cases hjk : j = k
      · subst hjk
        obtain ⟨s, c, hsc, hs⟩ := hr
        have hne1 : ¬ s = "Success" := by
          rcases hs with h1 | h1 <;> subst h1 <;> decide
        have hne2 : ¬ s = "Failed" := by
          rcases hs with h1 | h1 <;> subst h1 <;> decide
        have hpe : pollEntry (resp j) e = ⟨s, e.message⟩ := by
          rw [hsc]
          simp only [pollEntry, if_pos hact]
          rw [if_neg hne1, if_neg hne2, if_pos hs]
        have hfd : dictFind (pollInstance resp acc j).1 j =
            some (⟨s, e.message⟩ : Entry) := by
          rw [pollInstance_fst_eq resp acc j e h, dictFind_dictInsert,
            if_pos rfl, hpe]
        exact ih _ ⟨s, e.message⟩ hfd hs
      · have h2 : dictFind (pollInstance resp acc j).1 k = some e := by
          rw [pollInstance_find_ne resp acc j k hjk]; exact h
        exact ih _ e h2 hact

theorem pollFold_all_terminal (resp : String → QueryResult) (d : Dict)
    (hterm : ∀ i e, dictFind d i = some e → ¬ activeStatus e.status) :
    ∀ (ids : List String) (b : Bool),
      ids.foldl (pollInstance resp) (d, b) = (d, b) := by
  intro ids
  induction ids with
  | nil => intro b; rfl
  | cons j rest ih =>
      intro b
      rw [List.foldl_cons]
      have hstep : pollInstance resp (d, b) j = (d, b) := by
        cases hf : dictFind d j with
        | none => exact pollInstance_none resp (d, b) j hf
        | some e => exact pollInstance_not_active resp (d, b) j e hf (hterm j e hf)
      rw [hstep, ih b]

theorem pollFold_length (resp : String → QueryResult) :
    ∀ (ids : List String) (acc : Dict × Bool),
      (ids.foldl (pollInstance resp) acc).1.length = acc.1.length := by
  intro ids
  induction ids with
  | nil => intro acc; rfl
  | cons j rest ih =>
      intro acc
      rw [List.foldl_cons, ih, pollInstance_length]

theorem pollFold_agree (resp resp2 : String → QueryResult) (iid : String)
    (hag : ∀ j, j ≠ iid → resp j = resp2 j) :
    ∀ (ids : List String) (acc acc2 : Dict × Bool),
      (∀ j, j ≠ iid → dictFind acc.1 j = dictFind acc2.1 j) →
      ∀ j, j ≠ iid →
        dictFind (ids.foldl (pollInstance resp) acc).1 j =
        dictFind (ids.foldl (pollInstance resp2) acc2).1 j := by
  intro ids
  induction ids with
  | nil => intro acc acc2 hd j hj; exact hd j hj
  | cons k rest ih =>
      intro acc acc2 hd j hj
      rw [List.foldl_cons, List.foldl_cons]
      refine ih _ _ ?_ j hj
      intro j2 hj2
      by_cases hk : k = iid
      · subst hk
        rw [pollInstance_find_ne resp acc k j2 (fun h => hj2 h.symm),
          pollInstance_find_ne resp2 acc2 k j2 (fun h => hj2 h.symm)]
        exact hd j2 hj2
      · cases hf : dictFind acc.1 k with
        | none =>
            have hf2 : dictFind acc2.1 k = none := (hd k hk).symm.trans hf
            rw [pollInstance_none resp acc k hf, pollInstance_none resp2 acc2 k hf2]
            exact hd j2 hj2
        | some e =>
            have hf2 : dictFind acc2.1 k = some e := (hd k hk).symm.trans hf
            rw [pollInstance_fst_eq resp acc k e hf,
              pollInstance_fst_eq resp2 acc2 k e hf2,
              dictFind_dictInsert, dictFind_dictInsert, hag k hk]
            by_cases hkj : k = j2
            · rw [if_pos hkj, if_pos hkj]
            · rw [if_neg hkj, if_neg hkj]
              exact hd j2 hj2

/-! The while loop. -/

theorem pollLoop_zero (resp : Nat → String → QueryResult) (ids : List String)
    (d : Dict) (b : Bool) (r : Nat) : pollLoop resp ids 0 d b r = (d, r) := rfl

theorem pollLoop_succ_true (resp : Nat → String → QueryResult) (ids : List String)
    (n : Nat) (d : Dict) (r : Nat) : pollLoop resp ids (n + 1) d true r = (d, r) := rfl

theorem pollLoop_succ_false (resp : Nat → String → QueryResult) (ids : List String)
    (n : Nat) (d : Dict) (r : Nat) :
    pollLoop resp ids (n + 1) d false r =
      pollLoop resp ids n (pollRound (resp (r + 1)) ids d).1
        (pollRound (resp (r + 1)) ids d).2 (r + 1) := rfl

theorem pollLoop_terminal (resp : Nat → String → QueryResult) (ids : List String)
    (k : String) (e : Entry) (hterm : ¬ activeStatus e.status) :
    ∀ (fuel : Nat) (d : Dict) (b : Bool) (r : Nat), dictFind d k = some e →
      dictFind (pollLoop resp ids fuel d b r).1 k = some e := by
  intro fuel
  induction fuel with
  | zero => intro d b r h; exact h
  | succ n ih =>
      intro d b r h
      cases b with
      | true => rw [pollLoop_succ_true]; exact h
      | false =>
          rw [pollLoop_succ_false]
          exact ih _ _ _ (pollFold_terminal (resp (r + 1)) k e hterm ids (d, true) h)

theorem pollLoop_active (resp : Nat → String → QueryResult) (ids : List String)
    (k : String) (hresp : ∀ r, ∃ s c, resp r k = .ok s c ∧ activeStatus s) :
    ∀ (fuel : Nat) (d : Dict) (b : Bool) (r : Nat) (e : Entry),
      dictFind d k = some e → activeStatus e.status →
      ∃ e2, dictFind (pollLoop resp ids fuel d b r).1 k = some e2 ∧
        activeStatus e2.status := by
  intro fuel
  induction fuel with
  | zero => intro d b r e h hact; exact ⟨e, h, hact⟩
  | succ n ih =>
      intro d b r e h hact
      cases b with
      | true => rw [pollLoop_succ_true]; exact ⟨e, h, hact⟩
      | false =>
          rw [pollLoop_succ_false]
          obtain ⟨e2, h2, hact2⟩ :=
            pollFold_active (resp (r + 1)) k (hresp (r + 1)) ids (d, true) e h hact
          exact ih _ _ _ e2 h2 hact2

theorem pollLoop_retries_le (resp : Nat → String → QueryResult) (ids : List String) :
    ∀ (fuel : Nat) (d : Dict) (b : Bool) (r : Nat),
      (pollLoop resp ids fuel d b r).2 ≤ r + fuel := by
  intro fuel
  induction fuel with
  | zero => intro d b r; simp [pollLoop_zero]
  | succ n ih =>
      intro d b r
      cases b with
      | true => rw [pollLoop_succ_true]; omega
      | false =>
          rw [pollLoop_succ_false]
          have := ih (pollRound (resp (r + 1)) ids d).1
            (pollRound (resp (r + 1)) ids d).2 (r + 1)
          omega

theorem pollLoop_length (resp : Nat → String → QueryResult) (ids : List String) :
    ∀ (fuel : Nat) (d : Dict) (b : Bool) (r : Nat),
      (pollLoop resp ids fuel d b r).1.length = d.length := by
  intro fuel
  induction fuel with
  | zero => intro d b r; rfl
  | succ n ih =>
      intro d b r
      cases b with
      | true => rfl
      | false =>
          rw [pollLoop_succ_false, ih]
          exact pollFold_length (resp (r + 1)) ids (d, true)

/-! Initialisation. -/

theorem initFold_find (k : String) :
    ∀ (ids : List String) (d : Dict),
      dictFind (ids.foldl (fun d2 iid => dictInsert d2 iid ⟨"Pending", ""⟩) d) k =
        if k ∈ ids then some ⟨"Pending", ""⟩ else dictFind d k := by
  intro ids
  induction ids with
  | nil => intro d; simp
  | cons j rest ih =>
      intro d
      rw [List.foldl_cons, ih]
      by_cases hk : k ∈ rest
      · rw [if_pos hk, if_pos (List.mem_cons_of_mem j hk)]
      · rw [if_neg hk, dictFind_dictInsert]
        by_cases hjk : j = k
        · subst hjk
          rw [if_pos rfl, if_pos (List.mem_cons_self j rest)]
        · rw [if_neg hjk, if_neg (by
            rw [List.mem_cons]
            push_neg
            exact ⟨fun h => hjk h.symm, hk⟩)]

theorem initResults_find (ids : List String) (k : String) :
    dictFind (initResults ids) k =
      if k ∈ ids then some ⟨"Pending", ""⟩ else none := by
  rw [initResults, initFold_find k ids []]
  rfl

theorem initFold_length :
    ∀ (ids : List String) (d : Dict), ids.Nodup →
      (∀ i, i ∈ ids → dictFind d i = none) →
      (ids.foldl (fun d2 iid => dictInsert d2 iid ⟨"Pending", ""⟩) d).length =
        d.length + ids.length := by
  intro ids
  induction ids with
  | nil => intro d _ _; simp
  | cons j rest ih =>
      intro d hN hfresh
      rw [List.foldl_cons]
      rw [ih (dictInsert d j ⟨"Pending", ""⟩) (List.nodup_cons.mp hN).2 ?_]
      · rw [dictInsert_length_none d j _ (hfresh j (List.mem_cons_self j rest))]
        simp
        omega
      · intro i hi
        rw [dictFind_dictInsert]
        have hji : ¬ j = i := by
          intro h
          exact (List.nodup_cons.mp hN).1 (h ▸ hi)
        rw [if_neg hji]
        exact hfresh i (List.mem_cons_of_mem j hi)

theorem initResults_length (ids : List String) (hN : ids.Nodup) :
    (initResults ids).length = ids.length := by
  have h := initFold_length ids [] hN (fun i _ => rfl)
  simpa [initResults] using h

theorem success_count_le (results : Dict) :
    success_count results ≤ results.length :=
  List.length_filter_le _ _

/-! Claim theorems. -/

/-- Claim C4 (confirmed): once a target's recorded status is terminal (neither
"Pending" nor "InProgress"), no later polling round re-queries or modifies it:
through any remaining budget, under any channel behaviour, the target's status
and message are returned exactly as recorded — a TargetOutcome never
transitions out of a terminal status.  (The code guards every query with
`if results[instance_id]["status"] in ["Pending", "InProgress"]`.) -/
theorem claim4_terminal_never_modified (resp : Nat → String → QueryResult)
    (ids : List String) (fuel : Nat) (d : Dict) (b : Bool) (r : Nat)
    (iid : String) (e : Entry) (hfind : dictFind d iid = some e)
    (hterm : ¬ activeStatus e.status) :
    dictFind (pollLoop resp ids fuel d b r).1 iid = some e :=
  pollLoop_terminal resp ids iid e hterm fuel d b r hfind

theorem claim4_witness :
    dictFind (pollLoop (fun _ _ => .ok "Failed" none) ["i-1", "i-2"] 30
      [("i-1", ⟨"Success", "Password updated successfully"⟩),
       ("i-2", ⟨"Pending", ""⟩)] false 0).1 "i-1" =
      some ⟨"Success", "Password updated successfully"⟩ :=
  claim4_terminal_never_modified (fun _ _ => .ok "Failed" none)
    ["i-1", "i-2"] 30 _ false 0 "i-1" _ (by decide) (by decide)

/-- Claim C1 (refuted as stated): a target whose channel status is still an
active one when the 30-round budget runs out is NOT returned as "TimedOut":
the code never assigns any timeout status.  Concretely, with one instance whose
status query reports "InProgress" on every round, `update_password` returns
the target with status "InProgress" — a non-terminal status, and not
"TimedOut". -/
theorem claim1_counterexample :
    update_password (.ok "cmd-1") (fun _ _ => .ok "InProgress" none) ["i-1"] =
      .success [("i-1", ⟨"InProgress", ""⟩)] ∧
    activeStatus "InProgress" ∧ "InProgress" ≠ "TimedOut" :=
  ⟨rfl, by decide, by decide⟩

/-- Claim C1 (amended): if the polling budget is exhausted while a target's
channel status is still active, the convergence loop returns that target with
its last recorded status, still "Pending" or "InProgress" — left non-terminal,
with no "TimedOut" assignment.  Formally: whenever the channel only ever
reports active statuses for a target, the returned outcome for that target is
active, whatever the (here 30-round) budget does. -/
theorem claim1_amended (resp : Nat → String → QueryResult) (ids : List String)
    (cmd : String) (iid : String) (hmem : iid ∈ ids)
    (hresp : ∀ r, ∃ s c, resp r iid = .ok s c ∧ activeStatus s) :
    ∃ results e, update_password (.ok cmd) resp ids = .success results ∧
      dictFind results iid = some e ∧ activeStatus e.status := by
  have hne : ids.isEmpty = false := by
    cases ids with
    | nil => cases hmem
    | cons a l => rfl
  have hinit : dictFind (initResults ids) iid = some ⟨"Pending", ""⟩ := by
    rw [initResults_find, if_pos hmem]
  obtain ⟨e2, h2, hact2⟩ := pollLoop_active resp ids iid hresp max_retries
    (initResults ids) false 0 ⟨"Pending", ""⟩ hinit (Or.inl rfl)
  refine ⟨(pollLoop resp ids max_retries (initResults ids) false 0).1, e2,
    ?_, h2, hact2⟩
  simp [update_password, hne]

theorem claim1_amended_witness :
    ∃ results e,
      update_password (.ok "cmd-1") (fun _ _ => .ok "Pending" none) ["i-9"] =
        .success results ∧
      dictFind results "i-9" = some e ∧ activeStatus e.status :=
  claim1_amended (fun _ _ => .ok "Pending" none) ["i-9"] "cmd-1" "i-9"
    (by decide) (fun _ => ⟨"Pending", none, rfl, Or.inl rfl⟩)

/-- Claim C6 (confirmed): the polling loop runs at most `max_retries = 30`
rounds (each preceded by one `poll_interval = 10` second sleep, so the
returned round counter also counts the sleeps); it returns immediately once
`all_complete` is set; and when every recorded outcome is already terminal it
stops after exactly one more (no-op) round, whatever budget remains. -/
theorem claim6_loop_bound (resp : Nat → String → QueryResult) (ids : List String)
    (d : Dict) (b : Bool) :
    (pollLoop resp ids max_retries d b 0).2 ≤ max_retries ∧
    (∀ (fuel : Nat) (d2 : Dict) (r : Nat),
      pollLoop resp ids (fuel + 1) d2 true r = (d2, r)) ∧
    (∀ (fuel : Nat) (d2 : Dict) (r : Nat),
      (∀ i e, dictFind d2 i = some e → ¬ activeStatus e.status) →
      pollLoop resp ids (fuel + 1) d2 false r = (d2, r + 1)) ∧
    max_retries = 30 ∧ poll_interval = 10 := by
  refine ⟨?_, ?_, ?_, rfl, rfl⟩
  · simpa using pollLoop_retries_le resp ids max_retries d b 0
  · intro fuel d2 r
    exact pollLoop_succ_true resp ids fuel d2 r
  · intro fuel d2 r hterm
    rw [pollLoop_succ_false]
    have hr : pollRound (resp (r + 1)) ids d2 = (d2, true) :=
      pollFold_all_terminal (resp (r + 1)) d2 hterm ids true
    rw [hr]
    cases fuel with
    | zero => exact pollLoop_zero resp ids d2 true (r + 1)
    | succ n => exact pollLoop_succ_true resp ids n d2 (r + 1)

theorem claim6_witness :
    (pollLoop (fun _ _ => .ok "Success" none) ["i-1"] max_retries
      [("i-1", ⟨"Pending", ""⟩)] false 0).2 ≤ max_retries ∧
    pollLoop (fun _ _ => .ok "Success" none) ["i-1"] (3 + 1) [] false 7 =
      ([], 7 + 1) :=
  ⟨(claim6_loop_bound (fun _ _ => .ok "Success" none) ["i-1"]
      [("i-1", ⟨"Pending", ""⟩)] false).1,
   (claim6_loop_bound (fun _ _ => .ok "Success" none) ["i-1"]
      [("i-1", ⟨"Pending", ""⟩)] false).2.2.1 3 [] 7
      (fun _ _ h => Option.noConfusion h)⟩

/-- Claim C2 (refuted as stated): a transient status-query exception does NOT
leave the target's recorded status unchanged — the code assigns "Error" with
the exception text as message, and "Error" is outside the re-query guard, so
the target is treated as terminal.  Concretely: one instance whose query
raises a throttling error on round 1 and would report "Success" from round 2
on ends with final status "Error", not "Success". -/
theorem claim2_counterexample :
    update_password (.ok "cmd-1")
      (fun r _ => if r = 1 then .clientError "Throttling: Rate exceeded"
        else .ok "Success" none) ["i-1"] =
      .success [("i-1", ⟨"Error", "Throttling: Rate exceeded"⟩)] ∧
    ("Error" : String) ≠ "Success" :=
  ⟨rfl, by decide⟩

/-- Claim C2 (amended): a transient per-target status-query failure does not
abort the polling round — every other target is processed exactly as it would
be under a channel that differs only on the failing target — but the failing
target's status is not left unchanged: it is set to "Error" (with the
exception text as message), which is terminal, so no later round re-queries
it and a success reported afterwards cannot change it. -/
theorem claim2_amended (resp resp2 : String → QueryResult) (ids : List String)
    (d : Dict) (iid msg : String) (e : Entry)
    (hN : ids.Nodup) (hmem : iid ∈ ids)
    (hfind : dictFind d iid = some e) (hact : activeStatus e.status)
    (hresp : resp iid = .clientError msg)
    (hsub : containsSub msg "InvalidInstanceId" = false)
    (hagree : ∀ j, j ≠ iid → resp j = resp2 j) :
    dictFind (pollRound resp ids d).1 iid = some ⟨"Error", msg⟩ ∧
    (∀ j, j ≠ iid →
      dictFind (pollRound resp ids d).1 j =
        dictFind (pollRound resp2 ids d).1 j) ∧
    (∀ (loopResp : Nat → String → QueryResult) (fuel : Nat) (d2 : Dict)
        (b : Bool) (r : Nat), dictFind d2 iid = some ⟨"Error", msg⟩ →
      dictFind (pollLoop loopResp ids fuel d2 b r).1 iid =
        some ⟨"Error", msg⟩) := by
  refine ⟨?_, ?_, ?_⟩
  · have h := pollFold_find_once resp iid ids hN hmem (d, true) e hfind
    rw [show pollRound resp ids d = ids.foldl (pollInstance resp) (d, true)
      from rfl, h, hresp]
    simp [pollEntry, hact, hsub]
  · intro j hj
    exact pollFold_agree resp resp2 iid hagree ids (d, true) (d, true)
      (fun _ _ => rfl) j hj
  · intro loopResp fuel d2 b r h2
    exact pollLoop_terminal loopResp ids iid ⟨"Error", msg⟩
      (show ¬ activeStatus "Error" by decide) fuel d2 b r h2

theorem claim2_amended_witness :
    dictFind (pollRound
      (fun j => if j = "i-1" then .clientError "Throttling: Rate exceeded"
        else .ok "Success" none) ["i-1", "i-2"]
      [("i-1", ⟨"Pending", ""⟩), ("i-2", ⟨"Pending", ""⟩)]).1 "i-1" =
      some ⟨"Error", "Throttling: Rate exceeded"⟩ :=
  (claim2_amended
    (fun j => if j = "i-1" then .clientError "Throttling: Rate exceeded"
      else .ok "Success" none)
    (fun _ => .ok "Success" none) ["i-1", "i-2"]
    [("i-1", ⟨"Pending", ""⟩), ("i-2", ⟨"Pending", ""⟩)] "i-1"
    "Throttling: Rate exceeded" ⟨"Pending", ""⟩
    (by decide) (by decide) (by decide) (by decide) (by decide) (by decide)
    (fun j hj => by simp [hj])).1

/-- Claim C3 (refuted as stated): an unknown/absent target registration
(the query raising a `ClientError` mentioning `InvalidInstanceId`) is mapped
to status "Failed" with message "Instance not found or not configured for
SSM" — not to "Error" as the claim states (and the "Failed" error detail is
embedded untruncated; see the amended theorem). -/
theorem claim3_counterexample :
    update_password (.ok "cmd-1")
      (fun _ _ => .clientError
        "An error occurred (InvalidInstanceId) when calling the GetCommandInvocation operation")
      ["i-1"] =
      .success [("i-1", ⟨"Failed", "Instance not found or not configured for SSM"⟩)] ∧
    ("Failed" : String) ≠ "Error" :=
  ⟨rfl, by decide⟩

/-- Claim C3 (amended): the status mapping actually implemented for a target
still in play is: raw "Success" → status "Success", message "Password updated
successfully"; raw "Failed" → status "Failed", message "Failed: <detail>"
(with "Unknown error" when the channel sends no detail; the detail is not
truncated); raw active codes ("Pending"/"InProgress") → recorded verbatim,
message untouched, round marked incomplete; any other raw code → recorded
verbatim with message "Status: <code>"; a query error mentioning
`InvalidInstanceId` → status "Failed" (not "Error") with a descriptive
message; any other query error → status "Error" with the exception text. -/
theorem claim3_amended (resp : String → QueryResult) (d : Dict) (b : Bool)
    (iid : String) (e : Entry) (hfind : dictFind d iid = some e)
    (hact : activeStatus e.status) :
    (∀ c, resp iid = .ok "Success" c →
      pollInstance resp (d, b) iid =
        (dictInsert d iid ⟨"Success", "Password updated successfully"⟩, b)) ∧
    (∀ c, resp iid = .ok "Failed" c →
      pollInstance resp (d, b) iid =
        (dictInsert d iid ⟨"Failed", "Failed: " ++ c.getD "Unknown error"⟩, b)) ∧
    (∀ s c, activeStatus s → resp iid = .ok s c →
      pollInstance resp (d, b) iid = (dictInsert d iid ⟨s, e.message⟩, false)) ∧
    (∀ s c, resp iid = .ok s c → ¬ s = "Success" → ¬ s = "Failed" →
      ¬ activeStatus s →
      pollInstance resp (d, b) iid =
        (dictInsert d iid ⟨s, "Status: " ++ s⟩, b)) ∧
    (∀ m, resp iid = .clientError m → containsSub m "InvalidInstanceId" = true →
      pollInstance resp (d, b) iid =
        (dictInsert d iid
          ⟨"Failed", "Instance not found or not configured for SSM"⟩, b)) ∧
    (∀ m, resp iid = .clientError m → containsSub m "InvalidInstanceId" = false →
      pollInstance resp (d, b) iid = (dictInsert d iid ⟨"Error", m⟩, b)) := by
  refine ⟨?_, ?_, ?_, ?_, ?_, ?_⟩
  · intro c h
    simp [pollInstance, hfind, h, hact]
  · intro c h
    simp [pollInstance, hfind, h, hact]
  · intro s c hs h
    have hne1 : ¬ s = "Success" := by
      rcases hs with h1 | h1 <;> subst h1 <;> decide
    have hne2 : ¬ s = "Failed" := by
      rcases hs with h1 | h1 <;> subst h1 <;> decide
    simp [pollInstance, hfind, h, hact, hne1, hne2, hs]
  · intro s c h hns hnf hna
    simp [pollInstance, hfind, h, hact, hns, hnf, hna]
  · intro m h hsub
    simp [pollInstance, hfind, h, hact, hsub]
  · intro m h hsub
    simp [pollInstance, hfind, h, hact, hsub]

theorem claim3_amended_witness :
    pollInstance (fun _ => .ok "Success" none)
      ([("i-1", ⟨"Pending", ""⟩)], true) "i-1" =
      (dictInsert [("i-1", ⟨"Pending", ""⟩)] "i-1"
        ⟨"Success", "Password updated successfully"⟩, true) :=
  (claim3_amended (fun _ => .ok "Success" none) [("i-1", ⟨"Pending", ""⟩)] true
    "i-1" ⟨"Pending", ""⟩ (by decide) (by decide)).1 none (by decide)

/-- Claim C5 (refuted as stated): the terminal-bucket accounting
"succeeded counts Success; failed counts {Failed, Error, Unavailable,
TimedOut}" does not add up to the number of available (dispatched) targets:
a target can exhaust the budget still "Pending", landing in neither bucket.
With two instances that report "Pending" on every round, both buckets are
empty though two targets were dispatched. -/
theorem claim5_counterexample :
    update_password (.ok "cmd-1") (fun _ _ => .ok "Pending" none)
      ["i-1", "i-2"] =
      .success [("i-1", ⟨"Pending", ""⟩), ("i-2", ⟨"Pending", ""⟩)] ∧
    success_count [("i-1", ⟨"Pending", ""⟩), ("i-2", ⟨"Pending", ""⟩)] +
      claimedFailedCount
        [("i-1", ⟨"Pending", ""⟩), ("i-2", ⟨"Pending", ""⟩)] ≠
      (["i-1", "i-2"] : List String).length :=
  ⟨rfl, by decide⟩

/-- Claim C5 (amended): the code derives `failed` as
`available - success_count`, so every status other than "Success" — terminal
or not — counts as failed, and with that definition
`succeeded + failed = available` holds for every completed run over a
duplicate-free instance list. -/
theorem claim5_amended (resp : Nat → String → QueryResult) (ids : List String)
    (cmd : String) (hN : ids.Nodup) (results : Dict)
    (h : update_password (.ok cmd) resp ids = .success results) :
    success_count results + failed_count ids.length results = ids.length := by
  by_cases hne : ids.isEmpty = true
  · rw [update_password, if_pos hne] at h
    cases h
  · simp only [update_password, if_neg hne] at h
    injection h with h2
    have hlen : results.length = ids.length := by
      rw [← h2, pollLoop_length, initResults_length ids hN]
    have hle : success_count results ≤ ids.length := by
      rw [← hlen]
      exact success_count_le results
    rw [failed_count]
    omega

theorem claim5_amended_witness :
    success_count [("i-1", ⟨"Success", "Password updated successfully"⟩)] +
      failed_count (["i-1"] : List String).length
        [("i-1", ⟨"Success", "Password updated successfully"⟩)] =
      (["i-1"] : List String).length :=
  claim5_amended (fun _ _ => .ok "Success" none) ["i-1"] "cmd-1" (by decide)
    [("i-1", ⟨"Success", "Password updated successfully"⟩)] rfl

/-- Claim C9 (confirmed): a raw channel status outside
{"Pending", "InProgress", "Success", "Failed"} (for example "Cancelled") is
recorded verbatim with message "Status: <status>"; being outside the re-query
guard it is treated as terminal — no later round under any channel behaviour
changes it — and `main` counts such a target as failed
(`data["status"] != "Success"`). -/
theorem claim9_other_status (resp : String → QueryResult) (ids : List String)
    (d : Dict) (iid s : String) (c : Option String) (e : Entry)
    (hN : ids.Nodup) (hmem : iid ∈ ids)
    (hfind : dictFind d iid = some e) (hact : activeStatus e.status)
    (hresp : resp iid = .ok s c)
    (hns : ¬ s = "Success") (hnf : ¬ s = "Failed") (hna : ¬ activeStatus s) :
    dictFind (pollRound resp ids d).1 iid = some ⟨s, "Status: " ++ s⟩ ∧
    (∀ (loopResp : Nat → String → QueryResult) (fuel : Nat) (d2 : Dict)
        (b : Bool) (r : Nat), dictFind d2 iid = some ⟨s, "Status: " ++ s⟩ →
      dictFind (pollLoop loopResp ids fuel d2 b r).1 iid =
        some ⟨s, "Status: " ++ s⟩) ∧
    (∀ results2 : Dict, dictFind results2 iid = some ⟨s, "Status: " ++ s⟩ →
      counted_failed results2 iid = true) := by
  refine ⟨?_, ?_, ?_⟩
  · have h := pollFold_find_once resp iid ids hN hmem (d, true) e hfind
    rw [show pollRound resp ids d = ids.foldl (pollInstance resp) (d, true)
      from rfl, h, hresp]
    simp [pollEntry, hact, hns, hnf, hna]
  · intro loopResp fuel d2 b r h2
    exact pollLoop_terminal loopResp ids iid ⟨s, "Status: " ++ s⟩ hna
      fuel d2 b r h2
  · intro results2 h2
    simp only [counted_failed, h2]
    exact decide_eq_true hns

theorem claim9_witness :
    dictFind (pollRound (fun _ => .ok "Cancelled" none) ["i-1"]
      [("i-1", ⟨"Pending", ""⟩)]).1 "i-1" =
      some ⟨"Cancelled", "Status: Cancelled"⟩ :=
  (claim9_other_status (fun _ => .ok "Cancelled" none) ["i-1"]
    [("i-1", ⟨"Pending", ""⟩)] "i-1" "Cancelled" none ⟨"Pending", ""⟩
    (by decide) (by decide) (by decide) (by decide) (by decide)
    (by decide) (by decide) (by decide)).1

/-- Claim C7 (refuted as stated): when the registration/heartbeat listing
raises, `verify_ssm_availability` does not fail with any error — it catches
the `ClientError` and returns a normal classification that marks every
requested target unavailable, i.e. it does guess reachability. -/
theorem claim7_counterexample :
    verify_ssm_availability (.clientError "AccessDenied") ["i-1", "i-2"] =
      ([], ["i-1", "i-2"]) := rfl

/-- Claim C7 (amended): on a listing failure `verify_ssm_availability`
returns `([], instance_ids)` — zero available, every target classified as
unavailable — and the availability gate of `main` then aborts the run
because no instance is available through SSM. -/
theorem claim7_amended (msg : String) (ids : List String) :
    verify_ssm_availability (.clientError msg) ids = ([], ids) ∧
    ssm_availability_aborts (.clientError msg) ids = true :=
  ⟨rfl, rfl⟩

/-- Claim C8 (refuted as stated): resolution does not deduplicate — an
explicit instance-id list is returned verbatim
(`if instance_ids: return instance_ids`), so two specs resolving to the same
canonical id stay two entries, and no label preference exists anywhere. -/
theorem claim8_counterexample :
    get_instance_ids (.ok []) none none (some ["i-1", "i-1"]) =
      ["i-1", "i-1"] ∧
    ¬ (["i-1", "i-1"] : List String).Nodup :=
  ⟨rfl, by decide⟩

/-- Claim C8 (amended): any non-empty explicit instance-id list passes
through `get_instance_ids` unchanged — duplicates retained, no
deduplication, no label preference — whatever the EC2 query, the tag filters
or the id file would have said. -/
theorem claim8_amended (describe : DescribeResult)
    (fileLines : Option (List String)) (tags : Option (List (String × String)))
    (ids : List String) (hne : ids ≠ []) :
    get_instance_ids describe fileLines tags (some ids) = ids := by
  have h : ids.isEmpty = false := by
    cases ids with
    | nil => exact absurd rfl hne
    | cons a l => rfl
  simp [get_instance_ids, h]

theorem claim8_amended_witness :
    get_instance_ids (.ok []) none none (some ["i-7", "i-7", "i-8"]) =
      ["i-7", "i-7", "i-8"] :=
  claim8_amended (.ok []) none none ["i-7", "i-7", "i-8"] (by decide)

end SSM

namespace SSH

/-- Claim C10 (confirmed): the SSH-variant `update_password` always returns a
`(success, message)` pair — every modelled outcome, including any raised
exception, yields a value, with exceptions turned into
`(False, "Error connecting to ...")` — and the client is closed on every
path; consequently the per-server loop of `main` processes every host of the
batch, its collected results lining up one-to-one with the server list no
matter which hosts fail. -/
theorem claim10_ssh_total (port : Nat)
    (ssh_username ssh_password target_username new_password : String)
    (outcomes : String → SSHOutcome) (servers : List String)
    (hostname : String) :
    (∀ o, (update_password hostname port ssh_username ssh_password
      target_username new_password o).clientClosed = true) ∧
    (∀ o, ∃ b m, update_password hostname port ssh_username ssh_password
      target_username new_password o = ⟨b, m, true⟩) ∧
    (∀ m, update_password hostname port ssh_username ssh_password
      target_username new_password (.raised m) =
      ⟨false, "Error connecting to " ++ hostname ++ ": " ++ m, true⟩) ∧
    (main_results outcomes servers port ssh_username ssh_password
      target_username new_password).map (fun r => r.1) = servers := by
  refine ⟨fun o => rfl, fun o => ⟨_, _, rfl⟩, fun m => rfl, ?_⟩
  induction servers with
  | nil => rfl
  | cons hd tl ih =>
      simp only [main_results, List.map_cons] at ih ⊢
      rw [ih]

end SSH

end PasswordFleet
